import Mathlib

/-!
Verification of the Riser-Design-App life-cycle structural-integrity engine.

This file gives a shallow embedding, in Lean 4, of the pure computational
core of the repository (src/app.py: class LifeCycleAnalyzer and the
thickness-search helpers; src/calculations/calcs_collapse.py;
src/calculations/calcs_weight.py; src/main.py: the recommended-thickness
selection), and proves or refutes the frozen claims about it.

Modelling conventions:
- Python floats are modelled as exact rationals (ℚ).  The float constant
  math.pi is itself a rational number (the IEEE double closest to π); it is
  embedded as the literal 3.141592653589793.
- float("inf") sentinels are modelled by the tagged type Fv (fin q | inf).
- Python raises ZeroDivisionError on float division by zero (1/0.0).  The
  one place the engine can hit this (the utilization field, 1/sf with
  sf = 0.0) is modelled with Option: none marks the raised exception.
- math.sqrt produces irrational values.  Wherever the code only compares a
  square root against a non-negative bound (pass/fail flags), the embedding
  stores the radicand and compares squares, which is equivalent because
  both sides are non-negative; each such site is commented.
- Python strings and their .lower()/.upper() normalisation are kept as
  Lean Strings, so dictionary-default and fall-through branches are exact.
-/

namespace RiserApp

/-- Python str.lower applied to the ASCII strings used by the app
(character-wise lowering of the underlying character list). -/
def strLower (s : String) : String := String.mk (s.data.map Char.toLower)

/-- Python str.upper applied to the ASCII strings used by the app
(character-wise raising of the underlying character list). -/
def strUpper (s : String) : String := String.mk (s.data.map Char.toUpper)

/-- Tagged model of the Python floats appearing in the engine: a finite
rational or the float("inf") sentinel.  (NaN never arises on the embedded
paths.) -/
inductive Fv where
  | fin (q : ℚ)
  | inf
deriving DecidableEq, Repr

/-- Python comparison sf >= 1.0 on an Fv value (inf >= 1.0 is True). -/
def Fv.geOne : Fv → Bool
  | .fin q => decide (1 ≤ q)
  | .inf => true

-- Constants from src/app.py.
def DEFAULT_E_PSI : ℚ := 2.9e7
def DEFAULT_POISSON : ℚ := 0.30
def DEFAULT_WATER_DENSITY : ℚ := 64.0
def DESIGN_LIFE_YEARS : ℚ := 20
def CORROSION_RATE_PER_YEAR : ℚ := 0.004
def MILL_TOLERANCE : ℚ := 0.125
def HYDROTEST_FACTOR : ℚ := 1.25

/-- MANUFACTURING_COLLAPSE_FACTOR dict of src/app.py, including the .get
default 0.70 used at the lookup site (compute_collapse). -/
def manufacturingCollapseFactor (m : String) : ℚ :=
  if m = "SMLS" then 0.70
  else if m = "ERW" then 0.75
  else if m = "DSAW" then 0.60
  else 0.70

/-- get_collapse_factor of src/calculations/calcs_collapse.py (dict lookup
with default 0.6). -/
def calcsGetCollapseFactor (m : String) : ℚ :=
  if m = "Seamless" then 0.7
  else if m = "ERW" then 0.7
  else if m = "DSAW" then 0.6
  else if m = "SAW" then 0.6
  else if m = "Cold Expanded" then 0.6
  else if m = "EFW" then 0.6
  else 0.6

/-- PipeProperties dataclass of src/app.py. -/
structure PipeProperties where
  od_in : ℚ
  wt_in : ℚ
  grade : String
  manufacturing : String
  design_category : String
  fluid_type : String
  fluid_sg : ℚ
  smys_psi : ℚ
  uts_psi : ℚ
  ovality_type : String
  ovality : ℚ
  E_psi : ℚ := DEFAULT_E_PSI
  poisson : ℚ := DEFAULT_POISSON
deriving DecidableEq, Repr

/-- LoadingCondition dataclass of src/app.py. -/
structure LoadingCondition where
  design_pressure_psi : ℚ
  shut_in_pressure_psi : ℚ
  shut_in_location : String
  water_depth_m : ℚ
  riser_length_m : ℚ
deriving DecidableEq, Repr

/-- LifeCycleAnalyzer._ft_from_m. -/
def ftFromM (depth_m : ℚ) : ℚ := depth_m * 3.28084

/-- LifeCycleAnalyzer.external_pressure_psi. -/
def externalPressurePsi (load : LoadingCondition) : ℚ :=
  DEFAULT_WATER_DENSITY * ftFromM load.water_depth_m / 144.0

/-- LifeCycleAnalyzer.external_pressure_psi_for_position: Top is
atmospheric only; any other position string takes the bottom branch. -/
def externalPressurePsiForPosition (load : LoadingCondition) (position : String) : ℚ :=
  if strLower position = "top" then 14.7
  else 14.7 + DEFAULT_WATER_DENSITY * ftFromM load.water_depth_m / 144.0

/-- LifeCycleAnalyzer.calculate_mop. -/
def calculateMop (pipe : PipeProperties) (load : LoadingCondition) : ℚ :=
  if load.shut_in_location = "Top of Riser" then load.shut_in_pressure_psi
  else
    let riser_length_ft := ftFromM load.riser_length_m
    let fluid_density_pcf := pipe.fluid_sg * DEFAULT_WATER_DENSITY
    let hydrostatic_head_psi := fluid_density_pcf * riser_length_ft / 144.0
    max (load.shut_in_pressure_psi - hydrostatic_head_psi) 0

/-- LifeCycleAnalyzer.calculate_hydrotest_pressure. -/
def calculateHydrotestPressure (pipe : PipeProperties) (load : LoadingCondition)
    (position : String) : ℚ :=
  let base_hydrotest_pressure := load.design_pressure_psi * HYDROTEST_FACTOR
  if strLower position = "bottom" then base_hydrotest_pressure
  else
    let riser_length_ft := ftFromM load.riser_length_m
    let test_fluid_density_pcf := pipe.fluid_sg * DEFAULT_WATER_DENSITY
    let hydrostatic_head_psi := test_fluid_density_pcf * riser_length_ft / 144.0
    max (base_hydrotest_pressure - hydrostatic_head_psi) 0

/-- LifeCycleAnalyzer.calculate_internal_pressure_at_position. -/
def calculateInternalPressureAtPosition (pipe : PipeProperties)
    (load : LoadingCondition) (position : String) : ℚ :=
  let riser_length_ft := ftFromM load.riser_length_m
  let fluid_density_pcf := pipe.fluid_sg * DEFAULT_WATER_DENSITY
  let hydrostatic_head_psi := fluid_density_pcf * riser_length_ft / 144.0
  if load.shut_in_location = "Top of Riser" then
    if strLower position = "top" then load.shut_in_pressure_psi
    else load.shut_in_pressure_psi + hydrostatic_head_psi
  else
    if strLower position = "bottom" then load.shut_in_pressure_psi
    else max (load.shut_in_pressure_psi - hydrostatic_head_psi) 0

/-- LifeCycleAnalyzer.get_internal_pressure_for_check.  The trailing
return 0.0 of the Python function is reached for an unrecognised
condition name and for an unrecognised check type at a non-Top position
of Operation. -/
def getInternalPressureForCheck (pipe : PipeProperties) (load : LoadingCondition)
    (condition_name check_type position : String) : ℚ :=
  if condition_name = "Installation" then 0
  else if condition_name = "Hydrotest" then
    calculateHydrotestPressure pipe load position
  else if condition_name = "Operation" then
    let position_pressure := calculateInternalPressureAtPosition pipe load position
    if strLower position = "top" then position_pressure
    else if check_type = "burst" ∨ check_type = "hoop" ∨
        check_type = "longitudinal" ∨ check_type = "combined" then
      load.design_pressure_psi
    else if check_type = "collapse" ∨ check_type = "propagation" then
      position_pressure
    else 0
  else 0

/-- LifeCycleAnalyzer.effective_wall_thickness. -/
def effectiveWallThickness (pipe : PipeProperties)
    (use_mill_tolerance use_corrosion : Bool) : ℚ :=
  let wt := pipe.wt_in
  let wt := if use_mill_tolerance then wt * (1 - MILL_TOLERANCE) else wt
  let wt := if use_corrosion then wt - CORROSION_RATE_PER_YEAR * DESIGN_LIFE_YEARS else wt
  max wt 0.001

-- ---------------------------------------------------------------------------
-- Check library (LifeCycleAnalyzer.compute_* and calculate_*_load)
-- ---------------------------------------------------------------------------

/-- Rational value of the Python float constant math.pi (the engine treats
it as an ordinary number; its exact binary value beyond these digits never
influences any branch proved about below). -/
def mathPi : ℚ := 3.141592653589793

def STEEL_DENSITY_PCF : ℚ := 490.0
def SEAWATER_DENSITY_PCF : ℚ := 64.0
def FRESHWATER_DENSITY_PCF : ℚ := 62.4

/-- Python round(x, 2): round to 2 decimal places, ties to even. -/
def pyRound2 (q : ℚ) : ℚ :=
  let x := q * 100
  let f : ℤ := ⌊x⌋
  let r := x - f
  let n : ℤ :=
    if r < 1/2 then f
    else if 1/2 < r then f + 1
    else if f % 2 = 0 then f else f + 1
  (n : ℚ) / 100

/-- Fields of calcs_weight.calculate_pipe_weights consumed by the engine
(the longitudinal check reads only void_submerged_weight_plf; both weight
outputs are rounded to 2 decimals by the source). -/
structure PipeWeights where
  void_dry_weight_plf : ℚ
  void_submerged_weight_plf : ℚ
deriving DecidableEq, Repr

/-- calcs_weight.calculate_pipe_weights (the two fields used downstream). -/
def calculatePipeWeights (od_inches wt_inches fluid_sg : ℚ)
    (use_seawater : Bool) : PipeWeights :=
  let od_ft := od_inches / 12.0
  let id_inches := od_inches - 2.0 * wt_inches
  let id_ft := id_inches / 12.0
  let water_density := if use_seawater then SEAWATER_DENSITY_PCF else FRESHWATER_DENSITY_PCF
  let a_steel := mathPi / 4.0 * (od_ft ^ 2 - id_ft ^ 2)
  let a_outer := mathPi / 4.0 * od_ft ^ 2
  let void_dry_weight_plf := STEEL_DENSITY_PCF * a_steel
  let void_submerged_weight_plf := void_dry_weight_plf - water_density * a_outer
  { void_dry_weight_plf := pyRound2 void_dry_weight_plf
    void_submerged_weight_plf := pyRound2 void_submerged_weight_plf }

/-- LifeCycleAnalyzer._burst_design_factor. -/
def burstDesignFactor (design_category : String) : ℚ :=
  if strLower design_category = "pipeline" then 0.90 else 0.75

/-- LifeCycleAnalyzer._hoop_design_factor. -/
def hoopDesignFactor (pipe : PipeProperties) : ℚ :=
  if strLower pipe.design_category = "pipeline" then 0.72
  else if strLower pipe.fluid_type = "gas" ∨ strLower pipe.fluid_type = "wet gas" then 0.50
  else if strLower pipe.fluid_type = "oil" ∨ strLower pipe.fluid_type = "multiphase" then 0.60
  else 0.72

/-- Result record of LifeCycleAnalyzer.compute_burst.  The utilization
field is Python "0 if sf == inf else 1/sf"; 1/0.0 raises
ZeroDivisionError, modelled by none. -/
structure BurstResult where
  pb : ℚ
  allowable_burst : ℚ
  delta_p : ℚ
  safety_factor : Fv
  utilization : Option ℚ
  pass_fail : Bool
deriving DecidableEq, Repr

/-- LifeCycleAnalyzer.compute_burst. -/
def computeBurst (pipe : PipeProperties) (p_internal p_external wt_eff : ℚ) :
    BurstResult :=
  let fd := burstDesignFactor pipe.design_category
  let od := pipe.od_in
  let pb :=
    if wt_eff < od then 0.90 * (pipe.smys_psi + pipe.uts_psi) * wt_eff / (od - wt_eff)
    else 0
  let allowable_burst := fd * 1.0 * 1.0 * pb
  let delta_p := p_internal - p_external
  let sf : Fv := if delta_p ≤ 0 then .inf else .fin (allowable_burst / delta_p)
  let utilization : Option ℚ :=
    match sf with
    | .inf => some 0
    | .fin s => if s = 0 then none else some (1 / s)
  { pb := pb, allowable_burst := allowable_burst, delta_p := delta_p
    safety_factor := sf, utilization := utilization, pass_fail := sf.geOne }

/-- Result record of LifeCycleAnalyzer.compute_collapse.  The critical
pressure P_c = P_y·P_e/sqrt(P_y²+P_e²) is irrational, so the embedding
records P_y, P_e, f_o and the branch outcomes; the pass flag compares
squares, which is equivalent on the code path (see computeCollapse). -/
structure CollapseResult where
  py : ℚ
  pe : ℚ
  collapse_factor : ℚ
  delta_p : ℚ
  sf_is_infinite : Bool
  pass_fail : Bool
deriving DecidableEq, Repr

/-- LifeCycleAnalyzer.compute_collapse.  Source: pc = py·pe/sqrt(py²+pe²)
when py>0 and pe>0 (else 0); sf = inf when delta_p ≤ 0 else f_o·pc/delta_p;
pass_fail = sf ≥ 1.  For delta_p > 0 with py,pe > 0, sf ≥ 1 iff
f_o·py·pe ≥ delta_p·sqrt(py²+pe²); both sides are positive, so squaring is
an equivalence; with py ≤ 0 or pe ≤ 0 the allowable is 0 < delta_p, a
fail.  f_o is always one of 0.60/0.70/0.75 and hence positive. -/
def computeCollapse (pipe : PipeProperties) (p_internal p_external wt_eff : ℚ) :
    CollapseResult :=
  let od := pipe.od_in
  let f_o := manufacturingCollapseFactor (strUpper pipe.manufacturing)
  let t_over_d := wt_eff / od
  let py := 2 * pipe.smys_psi * t_over_d
  let pe := 2 * pipe.E_psi * t_over_d ^ 3 / ((1 - pipe.poisson ^ 2) * (1 + pipe.ovality))
  let delta_p := p_external - p_internal
  let pass : Bool :=
    if delta_p ≤ 0 then true
    else decide ((0 < py ∧ 0 < pe) ∧ delta_p ^ 2 * (py ^ 2 + pe ^ 2) ≤ (f_o * py * pe) ^ 2)
  { py := py, pe := pe, collapse_factor := f_o, delta_p := delta_p
    sf_is_infinite := decide (delta_p ≤ 0), pass_fail := pass }

/-- Result record of LifeCycleAnalyzer.compute_propagation (P_p is
irrational via the exponent 2.5; the pass flag compares squares, see
computePropagation). -/
structure PropagationResult where
  t_over_d : ℚ
  delta_p : ℚ
  sf_is_infinite : Bool
  pass_fail : Bool
deriving DecidableEq, Repr

/-- LifeCycleAnalyzer.compute_propagation.  Source: pp = 35·smys·(t/D)^2.5;
sf = inf when delta_p ≤ 0 else 0.80·pp/delta_p; pass_fail = sf ≥ 1.  In
every engine call t/D ≥ 0 (wt_eff is floored at 0.001 and D > 0).  For
delta_p > 0, 0.80·pp ≥ delta_p iff smys ≥ 0 and
(0.80·35·smys)²·(t/D)⁵ ≥ delta_p² (squaring both non-negative sides, with
((t/D)^2.5)² = (t/D)⁵; a negative smys makes the allowable ≤ 0 < delta_p,
a fail). -/
def computePropagation (pipe : PipeProperties) (p_internal p_external wt_eff : ℚ) :
    PropagationResult :=
  let od := pipe.od_in
  let t_over_d := wt_eff / od
  let delta_p := p_external - p_internal
  let pass : Bool :=
    if delta_p ≤ 0 then true
    else decide (0 ≤ pipe.smys_psi ∧
      delta_p ^ 2 ≤ (0.80 * 35 * pipe.smys_psi) ^ 2 * t_over_d ^ 5)
  { t_over_d := t_over_d, delta_p := delta_p
    sf_is_infinite := decide (delta_p ≤ 0), pass_fail := pass }

/-- Result record of LifeCycleAnalyzer.compute_hoop.  hoop_stress is the
float value (inf when the geometry degenerates); utilization none marks
the ZeroDivisionError of Python 1/0.0.  The returned record has no
invalid-geometry detail field (none exists in the source either). -/
structure HoopResult where
  hoop_stress : Fv
  design_factor : ℚ
  allowable : ℚ
  delta_p : ℚ
  safety_factor : Fv
  utilization : Option ℚ
  pass_fail : Bool
deriving DecidableEq, Repr

/-- LifeCycleAnalyzer.compute_hoop.  Python computes
sf = allowable/hoop_stress when hoop_stress > 0 (a float +inf satisfies
this and gives sf = allowable/inf = 0.0) and sf = inf otherwise. -/
def computeHoop (pipe : PipeProperties) (p_internal p_external wt_eff : ℚ) :
    HoopResult :=
  let od := pipe.od_in
  let design_factor := hoopDesignFactor pipe
  let delta_p := p_internal - p_external
  let hoop_stress : Fv :=
    if wt_eff ≤ 0 ∨ od ≤ wt_eff then .inf
    else if p_internal ≤ 0 then .fin (p_external * od / (2 * wt_eff))
    else if delta_p ≤ 0 then .fin (|delta_p| * od / (2 * wt_eff))
    else .fin (delta_p * od / (2 * wt_eff))
  let allowable := design_factor * pipe.smys_psi
  let sf : Fv :=
    match hoop_stress with
    | .inf => .fin 0
    | .fin h => if 0 < h then .fin (allowable / h) else .inf
  let utilization : Option ℚ :=
    match sf with
    | .inf => some 0
    | .fin s => if s = 0 then none else some (1 / s)
  { hoop_stress := hoop_stress, design_factor := design_factor
    allowable := allowable, delta_p := delta_p, safety_factor := sf
    utilization := utilization, pass_fail := sf.geOne }

/-- Result record of LifeCycleAnalyzer.calculate_longitudinal_load. -/
structure LongitudinalResult where
  t_a_lb : ℚ
  t_eff_lb : ℚ
  t_y_lb : ℚ
  allowable_tension_lb : ℚ
  safety_factor : Fv
  passes : Bool
deriving DecidableEq, Repr

/-- LifeCycleAnalyzer.calculate_longitudinal_load. -/
def calculateLongitudinalLoad (pipe : PipeProperties) (load : LoadingCondition)
    (wt_eff p_internal p_external : ℚ) (condition_name position : String) :
    LongitudinalResult :=
  let od := pipe.od_in
  let id_val := od - 2 * wt_eff
  let a_outer := mathPi / 4 * od ^ 2
  let a_inner := mathPi / 4 * id_val ^ 2
  let a_steel := a_outer - a_inner
  let weights := calculatePipeWeights od wt_eff pipe.fluid_sg true
  let void_submerged_plf := weights.void_submerged_weight_plf
  let t_a_lb :=
    if strLower position = "top" then void_submerged_plf * ftFromM load.riser_length_m
    else 0
  let force_internal_lb := p_internal * a_inner
  let force_external_lb := p_external * a_outer
  let t_eff_lb := t_a_lb - force_internal_lb + force_external_lb
  let t_y_lb := pipe.smys_psi * a_steel
  let allowable_tension_lb := 0.60 * t_y_lb
  let sf : Fv := if t_eff_lb ≤ 0 then .inf else .fin (allowable_tension_lb / t_eff_lb)
  { t_a_lb := t_a_lb, t_eff_lb := t_eff_lb, t_y_lb := t_y_lb
    allowable_tension_lb := allowable_tension_lb, safety_factor := sf
    passes := sf.geOne }

/-- Result record of LifeCycleAnalyzer.calculate_combined_load.  The code
works with combined_ratio = sqrt(ratio_sq); the embedding stores the
radicand ratio_sq. -/
structure CombinedResult where
  p_diff : ℚ
  pressure_component : ℚ
  tension_component : ℚ
  ratio_sq : ℚ
  design_factor : ℚ
  sf_is_infinite : Bool
  passes : Bool
deriving DecidableEq, Repr

/-- LifeCycleAnalyzer.calculate_combined_load.  Source: combined_ratio =
sqrt(pressure_component² + tension_component²); sf = design_factor/ratio
when ratio > 0 else inf; passes = ratio ≤ design_factor.  Since
ratio_sq ≥ 0 and design_factor > 0: ratio > 0 iff ratio_sq > 0, and
ratio ≤ design_factor iff ratio_sq ≤ design_factor². -/
def calculateCombinedLoad (pipe : PipeProperties) (load : LoadingCondition)
    (wt_eff p_internal p_external : ℚ) (condition_name position : String) :
    CombinedResult :=
  let longitudinal := calculateLongitudinalLoad pipe load wt_eff p_internal p_external
    condition_name position
  let burst_result := computeBurst pipe p_internal p_external wt_eff
  let p_b := burst_result.pb
  let p_diff := p_internal - p_external
  let pressure_component := if 0 < p_b then p_diff / p_b else 0
  let t_eff := longitudinal.t_eff_lb
  let t_y := longitudinal.t_y_lb
  let tension_component := if 0 < t_y then t_eff / t_y else 0
  let ratio_sq := pressure_component ^ 2 + tension_component ^ 2
  let design_factor : ℚ :=
    if condition_name = "Operation" then 0.90
    else if condition_name = "Hydrotest" then 0.96
    else 0.96
  { p_diff := p_diff, pressure_component := pressure_component
    tension_component := tension_component, ratio_sq := ratio_sq
    design_factor := design_factor
    sf_is_infinite := decide (ratio_sq ≤ 0)
    passes := decide (ratio_sq ≤ design_factor ^ 2) }

-- ---------------------------------------------------------------------------
-- Condition orchestrator (analyze_condition_at_position, run_all_conditions)
-- ---------------------------------------------------------------------------

/-- One evaluated cell of LifeCycleAnalyzer.analyze_condition_at_position. -/
structure ConditionCell where
  condition_name : String
  position : String
  use_mill_tolerance : Bool
  use_corrosion : Bool
  p_external_psi : ℚ
  wt_effective : ℚ
  burst : BurstResult
  collapse : CollapseResult
  propagation : PropagationResult
  hoop : HoopResult
  longitudinal : LongitudinalResult
  combined : CombinedResult
  all_pass : Bool
deriving Repr

/-- LifeCycleAnalyzer.analyze_condition_at_position: resolves the
per-check internal pressures, runs the six checks, and takes all_pass as
the conjunction of the six pass flags.  (The limiting-check selection of
lines 1029-1032 is modelled separately by limitingCheck below, because the
collapse/propagation safety-factor values are irrational.) -/
def analyzeConditionAtPosition (pipe : PipeProperties) (load : LoadingCondition)
    (condition_name position : String) (use_mill_tolerance use_corrosion : Bool) :
    ConditionCell :=
  let p_external := externalPressurePsiForPosition load position
  let wt_eff := effectiveWallThickness pipe use_mill_tolerance use_corrosion
  let p_i_burst := getInternalPressureForCheck pipe load condition_name "burst" position
  let burst := computeBurst pipe p_i_burst p_external wt_eff
  let p_i_collapse := getInternalPressureForCheck pipe load condition_name "collapse" position
  let collapse := computeCollapse pipe p_i_collapse p_external wt_eff
  let p_i_propagation := getInternalPressureForCheck pipe load condition_name "propagation" position
  let propagation := computePropagation pipe p_i_propagation p_external wt_eff
  let p_i_hoop := getInternalPressureForCheck pipe load condition_name "hoop" position
  let hoop := computeHoop pipe p_i_hoop p_external wt_eff
  let p_i_longitudinal := getInternalPressureForCheck pipe load condition_name "longitudinal" position
  let longitudinal := calculateLongitudinalLoad pipe load wt_eff p_i_longitudinal p_external
    condition_name position
  let p_i_combined := getInternalPressureForCheck pipe load condition_name "combined" position
  let combined := calculateCombinedLoad pipe load wt_eff p_i_combined p_external
    condition_name position
  { condition_name := condition_name, position := position
    use_mill_tolerance := use_mill_tolerance, use_corrosion := use_corrosion
    p_external_psi := p_external, wt_effective := wt_eff
    burst := burst, collapse := collapse, propagation := propagation
    hoop := hoop, longitudinal := longitudinal, combined := combined
    all_pass := burst.pass_fail && collapse.pass_fail && propagation.pass_fail &&
      hoop.pass_fail && longitudinal.passes && combined.passes }

/-- Wall-thickness variant list for Installation (run_all_conditions). -/
def installationWtTypes : List (Bool × Bool) := [(false, false), (true, false)]

/-- Wall-thickness variant list for Hydrotest (run_all_conditions). -/
def hydrotestWtTypes : List (Bool × Bool) := [(false, false), (true, false)]

/-- Wall-thickness variant list for Operation (run_all_conditions). -/
def operationWtTypes : List (Bool × Bool) :=
  [(false, false), (true, false), (false, true), (true, true)]

/-- Position iteration order of run_all_conditions. -/
def positionsList : List String := ["Top", "Bottom"]

/-- Cells of one life-cycle stage, in the loop order of
run_all_conditions (outer loop: wall-thickness variants; inner loop:
positions). -/
def stageCells (pipe : PipeProperties) (load : LoadingCondition)
    (condition_name : String) (wt_types : List (Bool × Bool)) : List ConditionCell :=
  wt_types.flatMap fun v =>
    positionsList.map fun pos =>
      analyzeConditionAtPosition pipe load condition_name pos v.1 v.2

/-- Result of LifeCycleAnalyzer.run_all_conditions (the nested dict is
flattened into the three stage groups in iteration order). -/
structure AnalysisRun where
  installation_cells : List ConditionCell
  hydrotest_cells : List ConditionCell
  operation_cells : List ConditionCell
  all_conditions_pass : Bool
deriving Repr

/-- All cells of a run, in the iteration order of the final aggregation
loop of run_all_conditions. -/
def AnalysisRun.cells (r : AnalysisRun) : List ConditionCell :=
  r.installation_cells ++ r.hydrotest_cells ++ r.operation_cells

/-- LifeCycleAnalyzer.run_all_conditions.  all_conditions_pass starts True
and is set to False whenever a cell with all_pass = False is seen, i.e. a
left fold of Boolean conjunction over the cells. -/
def runAllConditions (pipe : PipeProperties) (load : LoadingCondition) : AnalysisRun :=
  let inst := stageCells pipe load "Installation" installationWtTypes
  let hyd := stageCells pipe load "Hydrotest" hydrotestWtTypes
  let op := stageCells pipe load "Operation" operationWtTypes
  let cells := inst ++ hyd ++ op
  { installation_cells := inst, hydrotest_cells := hyd, operation_cells := op
    all_conditions_pass := cells.foldl (fun acc c => acc && c.all_pass) true }

-- ---------------------------------------------------------------------------
-- Limiting-check selection (analyze_condition_at_position, lines 1029-1032)
-- ---------------------------------------------------------------------------

/-- Name and safety factor of one pressure-only check, as consumed by the
limiting-check selection.  Safety factors live in WithTop ℚ: ⊤ models the
float("inf") favorable sentinel; the finite collapse/propagation values
are irrational reals, so the selection is modelled (and proved correct)
for arbitrary safety-factor values. -/
structure LimitEntry where
  name : String
  sf : WithTop ℚ
deriving DecidableEq, Repr

/-- Python min(first :: rest, key) with an identity key: scan left,
replacing the current best only on a strictly smaller safety factor, so
the earliest minimum wins. -/
def pyMinBySf (first : LimitEntry) (rest : List LimitEntry) : LimitEntry :=
  rest.foldl (fun acc c => if c.sf < acc.sf then c else acc) first

/-- Limiting-check selection of analyze_condition_at_position:
min([burst, collapse, propagation, hoop], key) where the key
lambda returns the safety factor unchanged (the inf-guard in the source
lambda is the identity). -/
def limitingCheck (burst collapse propagation hoop : LimitEntry) : LimitEntry :=
  pyMinBySf burst [collapse, propagation, hoop]

-- ---------------------------------------------------------------------------
-- Thickness search (app.py evaluate_standard_thicknesses / render_results,
-- main.py analyze_scenario)
-- ---------------------------------------------------------------------------

/-- Per-candidate summary of one AnalysisRun in the ascending
standard-thickness scan: the candidate thickness, its overall
all_conditions_pass flag (the Status column of
evaluate_standard_thicknesses), and the maximum utilization over all
checks in all cells (a value the claim consults; the source selection
never reads it). -/
structure ThicknessCandidate where
  wt : ℚ
  all_pass : Bool
  max_util : ℚ
deriving DecidableEq, Repr

/-- Least/recommended selection of main.py analyze_scenario: the loop
over ascending candidates sets least_thickness := wt and
recommended_thickness := wt at the first candidate with all_pass = True
and never changes them afterwards.  The Standard Thickness tab of
app.py render_results likewise reports the first row whose Status is
PASS.  The max_util field is never consulted. -/
def scenarioStep (st : Option ℚ × Option ℚ) (c : ThicknessCandidate) :
    Option ℚ × Option ℚ :=
  if c.all_pass && st.1.isNone then (some c.wt, some c.wt) else st

/-- Pair (least_thickness, recommended_thickness) produced by the
analyze_scenario loop of main.py: a left fold of scenarioStep starting
from (None, None). -/
def scenarioSelection (cands : List ThicknessCandidate) : Option ℚ × Option ℚ :=
  cands.foldl scenarioStep (none, none)

/-- Recommended thickness as the source computes it (second component of
scenarioSelection). -/
def codeRecommendedThickness (cands : List ThicknessCandidate) : Option ℚ :=
  (scenarioSelection cands).2

/-- Modelled from the claim (spec section 4.5): recommended = first
candidate with all_pass = true AND max utilization ≤ 0.85, falling back
to the least-passing candidate when no candidate meets the bound.  This
definition follows the claim wording, for comparison with
codeRecommendedThickness. -/
def specRecommendedThickness (cands : List ThicknessCandidate) : Option ℚ :=
  match cands.find? (fun c => c.all_pass && decide (c.max_util ≤ 0.85)) with
  | some c => some c.wt
  | none => (cands.find? (fun c => c.all_pass)).map (fun c => c.wt)

/-- Team 8 multiphase riser reference pipe (TEAM8_REFERENCE "Multiphase
Riser (ID 3)" of src/app.py, as instantiated in src/test_mop.py). -/
def team8Pipe : PipeProperties :=
  { od_in := 16.0
    wt_in := 0.750
    grade := "X-52"
    manufacturing := "SMLS"
    design_category := "Riser"
    fluid_type := "Multiphase"
    fluid_sg := 0.57
    smys_psi := 52000
    uts_psi := 66000
    ovality_type := "Other Type"
    ovality := 0.005 }

/-- Team 8 multiphase riser loading condition (src/test_mop.py). -/
def team8Load : LoadingCondition :=
  { design_pressure_psi := 1400.0
    shut_in_pressure_psi := 1236.0
    shut_in_location := "Subsea Wellhead"
    water_depth_m := 920.0
    riser_length_m := 920.0 }

/-- Team 8 pipe with an Electric-Resistance-Welded manufacturing process. -/
def erwPipe : PipeProperties := { team8Pipe with manufacturing := "ERW" }

/-- Degenerate pipe with a negative fluid specific gravity (outside any
physical range, but accepted by the dataclass). -/
def negSgPipe : PipeProperties := { team8Pipe with fluid_sg := -1 }

/-- Loading condition with the shut-in valve at the top of the riser and
zero shut-in pressure. -/
def topLocLoad : LoadingCondition :=
  { team8Load with shut_in_location := "Top of Riser", shut_in_pressure_psi := 0 }

-- ---------------------------------------------------------------------------
-- Projection lemmas (definitional unfoldings of the check records)
-- ---------------------------------------------------------------------------

section ProjectionLemmas

variable (pipe : PipeProperties) (load : LoadingCondition)
variable (p_internal p_external wt_eff : ℚ) (condition_name position : String)

lemma computeBurst_delta_p :
    (computeBurst pipe p_internal p_external wt_eff).delta_p =
      p_internal - p_external := rfl

lemma computeBurst_sf :
    (computeBurst pipe p_internal p_external wt_eff).safety_factor =
      (if p_internal - p_external ≤ 0 then Fv.inf
       else Fv.fin ((computeBurst pipe p_internal p_external wt_eff).allowable_burst /
         (p_internal - p_external))) := rfl

lemma computeBurst_pass :
    (computeBurst pipe p_internal p_external wt_eff).pass_fail =
      (computeBurst pipe p_internal p_external wt_eff).safety_factor.geOne := rfl

lemma computeCollapse_delta_p :
    (computeCollapse pipe p_internal p_external wt_eff).delta_p =
      p_external - p_internal := rfl

lemma computeCollapse_sf_is_infinite :
    (computeCollapse pipe p_internal p_external wt_eff).sf_is_infinite =
      decide (p_external - p_internal ≤ 0) := rfl

lemma computeCollapse_pass :
    (computeCollapse pipe p_internal p_external wt_eff).pass_fail =
      (if p_external - p_internal ≤ 0 then true
       else decide ((0 < (computeCollapse pipe p_internal p_external wt_eff).py ∧
           0 < (computeCollapse pipe p_internal p_external wt_eff).pe) ∧
         (p_external - p_internal) ^ 2 *
             ((computeCollapse pipe p_internal p_external wt_eff).py ^ 2 +
              (computeCollapse pipe p_internal p_external wt_eff).pe ^ 2) ≤
           ((computeCollapse pipe p_internal p_external wt_eff).collapse_factor *
              (computeCollapse pipe p_internal p_external wt_eff).py *
              (computeCollapse pipe p_internal p_external wt_eff).pe) ^ 2)) := rfl

lemma computePropagation_delta_p :
    (computePropagation pipe p_internal p_external wt_eff).delta_p =
      p_external - p_internal := rfl

lemma computePropagation_sf_is_infinite :
    (computePropagation pipe p_internal p_external wt_eff).sf_is_infinite =
      decide (p_external - p_internal ≤ 0) := rfl

lemma computePropagation_pass :
    (computePropagation pipe p_internal p_external wt_eff).pass_fail =
      (if p_external - p_internal ≤ 0 then true
       else decide (0 ≤ pipe.smys_psi ∧
         (p_external - p_internal) ^ 2 ≤ (0.80 * 35 * pipe.smys_psi) ^ 2 *
           (computePropagation pipe p_internal p_external wt_eff).t_over_d ^ 5)) := rfl

lemma computeBurst_pb :
    (computeBurst pipe p_internal p_external wt_eff).pb =
      (if wt_eff < pipe.od_in then
        0.90 * (pipe.smys_psi + pipe.uts_psi) * wt_eff / (pipe.od_in - wt_eff)
       else 0) := rfl

lemma computeBurst_allowable :
    (computeBurst pipe p_internal p_external wt_eff).allowable_burst =
      burstDesignFactor pipe.design_category * 1.0 * 1.0 *
        (computeBurst pipe p_internal p_external wt_eff).pb := rfl

lemma computeBurst_utilization :
    (computeBurst pipe p_internal p_external wt_eff).utilization =
      (match (computeBurst pipe p_internal p_external wt_eff).safety_factor with
       | .inf => some 0
       | .fin s => if s = 0 then none else some (1 / s)) := rfl

lemma computeHoop_stress :
    (computeHoop pipe p_internal p_external wt_eff).hoop_stress =
      (if wt_eff ≤ 0 ∨ pipe.od_in ≤ wt_eff then Fv.inf
       else if p_internal ≤ 0 then
         Fv.fin (p_external * pipe.od_in / (2 * wt_eff))
       else if p_internal - p_external ≤ 0 then
         Fv.fin (|p_internal - p_external| * pipe.od_in / (2 * wt_eff))
       else Fv.fin ((p_internal - p_external) * pipe.od_in / (2 * wt_eff))) := rfl

lemma computeHoop_sf :
    (computeHoop pipe p_internal p_external wt_eff).safety_factor =
      (match (computeHoop pipe p_internal p_external wt_eff).hoop_stress with
       | .inf => Fv.fin 0
       | .fin h =>
         if 0 < h then Fv.fin ((computeHoop pipe p_internal p_external wt_eff).allowable / h)
         else Fv.inf) := rfl

lemma computeHoop_utilization :
    (computeHoop pipe p_internal p_external wt_eff).utilization =
      (match (computeHoop pipe p_internal p_external wt_eff).safety_factor with
       | .inf => some 0
       | .fin s => if s = 0 then none else some (1 / s)) := rfl

lemma computeHoop_pass :
    (computeHoop pipe p_internal p_external wt_eff).pass_fail =
      (computeHoop pipe p_internal p_external wt_eff).safety_factor.geOne := rfl

lemma longitudinal_sf :
    (calculateLongitudinalLoad pipe load wt_eff p_internal p_external
        condition_name position).safety_factor =
      (if (calculateLongitudinalLoad pipe load wt_eff p_internal p_external
            condition_name position).t_eff_lb ≤ 0 then Fv.inf
       else Fv.fin ((calculateLongitudinalLoad pipe load wt_eff p_internal p_external
            condition_name position).allowable_tension_lb /
         (calculateLongitudinalLoad pipe load wt_eff p_internal p_external
            condition_name position).t_eff_lb)) := rfl

lemma longitudinal_passes :
    (calculateLongitudinalLoad pipe load wt_eff p_internal p_external
        condition_name position).passes =
      (calculateLongitudinalLoad pipe load wt_eff p_internal p_external
        condition_name position).safety_factor.geOne := rfl

lemma longitudinal_t_eff :
    (calculateLongitudinalLoad pipe load wt_eff p_internal p_external
        condition_name position).t_eff_lb =
      (if strLower position = "top" then
        (calculatePipeWeights pipe.od_in wt_eff pipe.fluid_sg true).void_submerged_weight_plf *
          ftFromM load.riser_length_m
       else 0) -
        p_internal * (mathPi / 4 * (pipe.od_in - 2 * wt_eff) ^ 2) +
        p_external * (mathPi / 4 * pipe.od_in ^ 2) := rfl

lemma combined_ratio_sq :
    (calculateCombinedLoad pipe load wt_eff p_internal p_external
        condition_name position).ratio_sq =
      (if 0 < (computeBurst pipe p_internal p_external wt_eff).pb then
        (p_internal - p_external) / (computeBurst pipe p_internal p_external wt_eff).pb
       else 0) ^ 2 +
      (if 0 < (calculateLongitudinalLoad pipe load wt_eff p_internal p_external
          condition_name position).t_y_lb then
        (calculateLongitudinalLoad pipe load wt_eff p_internal p_external
            condition_name position).t_eff_lb /
          (calculateLongitudinalLoad pipe load wt_eff p_internal p_external
            condition_name position).t_y_lb
       else 0) ^ 2 := rfl

lemma combined_sf_is_infinite :
    (calculateCombinedLoad pipe load wt_eff p_internal p_external
        condition_name position).sf_is_infinite =
      decide ((calculateCombinedLoad pipe load wt_eff p_internal p_external
        condition_name position).ratio_sq ≤ 0) := rfl

lemma combined_passes :
    (calculateCombinedLoad pipe load wt_eff p_internal p_external
        condition_name position).passes =
      decide ((calculateCombinedLoad pipe load wt_eff p_internal p_external
          condition_name position).ratio_sq ≤
        (calculateCombinedLoad pipe load wt_eff p_internal p_external
          condition_name position).design_factor ^ 2) := rfl

lemma combined_design_factor_pos :
    0 < (calculateCombinedLoad pipe load wt_eff p_internal p_external
        condition_name position).design_factor := by
  show (0:ℚ) < if condition_name = "Operation" then 0.90
    else if condition_name = "Hydrotest" then 0.96 else 0.96
  split_ifs <;> norm_num

end ProjectionLemmas

-- ---------------------------------------------------------------------------
-- Claim theorems
-- ---------------------------------------------------------------------------

/-- C9: for every positive nominal thickness, effective_wall_thickness
equals max(epsilon, nominal × (1 − 0.125 if tolerance else 1) −
(0.004 × 20 if corrosion else 0)) with epsilon = 0.001; it is monotonically
non-increasing as either flag turns on, strictly positive, and equals
0.57625 in for nominal = 0.750 in with both flags on. -/
theorem c9_effective_wall_thickness (pipe : PipeProperties)
    (use_mill use_corr : Bool) (hwt : 0 < pipe.wt_in) :
    effectiveWallThickness pipe use_mill use_corr =
      max 0.001 (pipe.wt_in * (if use_mill then 1 - 0.125 else 1) -
        (if use_corr then 0.004 * 20 else 0)) ∧
    effectiveWallThickness pipe true use_corr ≤
      effectiveWallThickness pipe false use_corr ∧
    effectiveWallThickness pipe use_mill true ≤
      effectiveWallThickness pipe use_mill false ∧
    0 < effectiveWallThickness pipe use_mill use_corr ∧
    effectiveWallThickness team8Pipe true true = 0.57625 := by
  have hmul : pipe.wt_in * (1 - MILL_TOLERANCE) ≤ pipe.wt_in := by
    unfold MILL_TOLERANCE
    nlinarith [hwt.le]
  have key : ∀ (um uc : Bool), effectiveWallThickness pipe um uc =
      max ((if um then pipe.wt_in * (1 - MILL_TOLERANCE) else pipe.wt_in) -
        (if uc then CORROSION_RATE_PER_YEAR * DESIGN_LIFE_YEARS else 0)) 0.001 := by
    intro um uc
    cases um <;> cases uc <;> simp [effectiveWallThickness]
  refine ⟨?_, ?_, ?_, ?_, ?_⟩
  · rw [key, max_comm]
    cases use_mill <;> cases use_corr <;>
      norm_num [MILL_TOLERANCE, CORROSION_RATE_PER_YEAR, DESIGN_LIFE_YEARS]
  · rw [key, key]
    refine max_le_max ?_ le_rfl
    cases use_corr <;> simp <;> linarith [hmul]
  · rw [key, key]
    refine max_le_max ?_ le_rfl
    have h008 : (0:ℚ) ≤ CORROSION_RATE_PER_YEAR * DESIGN_LIFE_YEARS := by
      norm_num [CORROSION_RATE_PER_YEAR, DESIGN_LIFE_YEARS]
    cases use_mill <;> simp <;> linarith
  · exact lt_of_lt_of_le (by norm_num) (le_max_right _ _)
  · norm_num [effectiveWallThickness, team8Pipe, MILL_TOLERANCE,
      CORROSION_RATE_PER_YEAR, DESIGN_LIFE_YEARS, max_def]

/-- C9 witness: the theorem instantiated at the Team 8 pipe. -/
theorem c9_witness :
    0 < team8Pipe.wt_in ∧
    effectiveWallThickness team8Pipe true true = 0.57625 :=
  ⟨by norm_num [team8Pipe],
   (c9_effective_wall_thickness team8Pipe true true (by norm_num [team8Pipe])).2.2.2.2⟩

/-- C6 counterexample: on the Scenario A inputs the code returns
MOP = 22094323/46875 ≈ 471.35 psi with a hydrostatic head ≈ 764.65 psi,
not the claimed ≈ 471.15 psi and ≈ 764.85 psi (both are off by ≈ 0.2 psi,
beyond any rounding of the two-decimal figures in the claim). -/
theorem c6_counterexample :
    calculateMop team8Pipe team8Load = 22094323 / 46875 ∧
    ¬ |calculateMop team8Pipe team8Load - 471.15| ≤ 0.1 ∧
    ¬ |team8Load.shut_in_pressure_psi - calculateMop team8Pipe team8Load - 764.85| ≤ 0.1 := by
  have hloc : ("Subsea Wellhead" = "Top of Riser") = False := by simp
  norm_num [calculateMop, team8Pipe, team8Load, ftFromM,
    DEFAULT_WATER_DENSITY, max_def, abs_le, hloc]

/-- C6 amended: on OD = 16.0 in, SG = 0.57, shut-in = 1236 psi, subsea
wellhead, riser length 920 m, the code converts the length to 3018.3728 ft,
uses fluid density 36.48 lb/ft³, obtains a hydrostatic head ≈ 764.65 psi
and returns MOP = 22094323/46875 ≈ 471.35 psi. -/
theorem c6_amended_mop :
    ftFromM team8Load.riser_length_m = 3018.3728 ∧
    team8Pipe.fluid_sg * DEFAULT_WATER_DENSITY = 36.48 ∧
    calculateMop team8Pipe team8Load = 22094323 / 46875 ∧
    |calculateMop team8Pipe team8Load - 471.35| ≤ 0.005 ∧
    |team8Load.shut_in_pressure_psi - calculateMop team8Pipe team8Load - 764.65| ≤ 0.005 := by
  have hloc : ("Subsea Wellhead" = "Top of Riser") = False := by simp
  norm_num [calculateMop, team8Pipe, team8Load, ftFromM,
    DEFAULT_WATER_DENSITY, max_def, abs_le, hloc]

/-- C1: at the Top position the Operation-stage resolver returns the
position-dependent pressure (here the MOP ≈ 471.35 psi) for the strength
checks as well, not the design pressure the claim (and the repository's
own test_mop.py assertions) require; only the Bottom position uses the
design pressure for strength checks. -/
theorem c1_operation_strength_pressure :
    getInternalPressureForCheck team8Pipe team8Load "Operation" "burst" "Top" =
      calculateMop team8Pipe team8Load ∧
    getInternalPressureForCheck team8Pipe team8Load "Operation" "burst" "Top" =
      22094323 / 46875 ∧
    getInternalPressureForCheck team8Pipe team8Load "Operation" "burst" "Top" ≠
      team8Load.design_pressure_psi ∧
    getInternalPressureForCheck team8Pipe team8Load "Operation" "hoop" "Top" ≠
      team8Load.design_pressure_psi ∧
    getInternalPressureForCheck team8Pipe team8Load "Operation" "burst" "Bottom" =
      team8Load.design_pressure_psi ∧
    getInternalPressureForCheck team8Pipe team8Load "Operation" "hoop" "Bottom" =
      team8Load.design_pressure_psi ∧
    getInternalPressureForCheck team8Pipe team8Load "Operation" "longitudinal" "Bottom" =
      team8Load.design_pressure_psi ∧
    getInternalPressureForCheck team8Pipe team8Load "Operation" "combined" "Bottom" =
      team8Load.design_pressure_psi := by
  have hloc : ("Subsea Wellhead" = "Top of Riser") = False := by decide
  have htop : strLower "Top" = "top" := by decide
  have hbot : strLower "Bottom" = "bottom" := by decide
  have h1 : ("Operation" = "Installation") = False := by decide
  have h2 : ("Operation" = "Hydrotest") = False := by decide
  have h3 : ("top" = "bottom") = False := by decide
  have h4 : ("bottom" = "top") = False := by decide
  simp only [getInternalPressureForCheck, calculateInternalPressureAtPosition,
    calculateMop, team8Pipe, team8Load, htop, hbot, hloc, h1, h2, h3, h4,
    if_false, if_true, if_pos rfl]
  norm_num [ftFromM, DEFAULT_WATER_DENSITY, max_def]

/-- C2: the engine's collapse factor table assigns ERW the value 0.75,
while the claim, the compute_collapse docstring and
calcs_collapse.get_collapse_factor all give 0.70 for ERW; SMLS and DSAW
agree at 0.70 and 0.60. -/
theorem c2_collapse_factor :
    (computeCollapse erwPipe 0 100 0.5).collapse_factor = 0.75 ∧
    (computeCollapse erwPipe 0 100 0.5).collapse_factor ≠ 0.70 ∧
    calcsGetCollapseFactor "ERW" = 0.70 ∧
    calcsGetCollapseFactor "Seamless" = 0.70 ∧
    (computeCollapse team8Pipe 0 100 0.5).collapse_factor = 0.70 ∧
    (computeCollapse { team8Pipe with manufacturing := "DSAW" } 0 100 0.5).collapse_factor
      = 0.60 := by
  have h1 : strUpper "ERW" = "ERW" := by simp [strUpper]
  have h2 : strUpper "SMLS" = "SMLS" := by simp [strUpper]
  have h3 : strUpper "DSAW" = "DSAW" := by simp [strUpper]
  have h4 : ("ERW" = "SMLS") = False := by simp
  have h5 : ("DSAW" = "SMLS") = False := by simp
  have h6 : ("DSAW" = "ERW") = False := by simp
  norm_num [computeCollapse, manufacturingCollapseFactor, calcsGetCollapseFactor,
    erwPipe, team8Pipe, h1, h2, h3, h4, h5, h6]

/-- C10 counterexample: with a negative fluid specific gravity (accepted
by the dataclass) and the wellhead at the top of the riser, the
Operation-stage stability pressure at the Bottom position is negative
even though the design and shut-in pressures are non-negative, so the
claim as stated (which assumes only non-negative pressures) fails. -/
theorem c10_counterexample :
    0 ≤ topLocLoad.design_pressure_psi ∧
    0 ≤ topLocLoad.shut_in_pressure_psi ∧
    getInternalPressureForCheck negSgPipe topLocLoad "Operation" "collapse" "Bottom" < 0 := by
  have h1 : ("Operation" = "Installation") = False := by decide
  have h2 : ("Operation" = "Hydrotest") = False := by decide
  have h3 : ("collapse" = "burst" ∨ "collapse" = "hoop" ∨
      "collapse" = "longitudinal" ∨ "collapse" = "combined") = False := by decide
  have h4 : ("collapse" = "collapse" ∨ "collapse" = "propagation") = True := by decide
  have hbot : strLower "Bottom" = "bottom" := by decide
  have h5 : ("bottom" = "top") = False := by decide
  simp only [getInternalPressureForCheck, calculateInternalPressureAtPosition,
    negSgPipe, topLocLoad, team8Pipe, team8Load, h1, h2, h3, h4, hbot, h5,
    if_false, if_true, if_pos rfl]
  norm_num [ftFromM, DEFAULT_WATER_DENSITY]

/-- C10 amended: given non-negative design and shut-in pressures AND a
non-negative fluid specific gravity and riser length, the resolved
internal pressure is non-negative for every stage, check type, position
and wellhead location; Installation resolves to exactly 0, and an
unrecognised stage name resolves to 0. -/
theorem c10_internal_pressure_nonneg (pipe : PipeProperties) (load : LoadingCondition)
    (condition_name check_type position : String)
    (hd : 0 ≤ load.design_pressure_psi) (hs : 0 ≤ load.shut_in_pressure_psi)
    (hsg : 0 ≤ pipe.fluid_sg) (hrl : 0 ≤ load.riser_length_m) :
    0 ≤ getInternalPressureForCheck pipe load condition_name check_type position ∧
    getInternalPressureForCheck pipe load "Installation" check_type position = 0 ∧
    (condition_name ≠ "Installation" → condition_name ≠ "Hydrotest" →
      condition_name ≠ "Operation" →
      getInternalPressureForCheck pipe load condition_name check_type position = 0) := by
  have hft : 0 ≤ ftFromM load.riser_length_m := by
    unfold ftFromM
    nlinarith
  have hhead : 0 ≤ pipe.fluid_sg * DEFAULT_WATER_DENSITY * ftFromM load.riser_length_m / 144.0 := by
    refine div_nonneg (mul_nonneg (mul_nonneg hsg ?_) hft) (by norm_num)
    norm_num [DEFAULT_WATER_DENSITY]
  have hbase : 0 ≤ load.design_pressure_psi * HYDROTEST_FACTOR := by
    refine mul_nonneg hd ?_
    norm_num [HYDROTEST_FACTOR]
  refine ⟨?_, ?_, ?_⟩
  · unfold getInternalPressureForCheck calculateHydrotestPressure
      calculateInternalPressureAtPosition
    split_ifs <;>
      first
        | exact hbase
        | exact le_max_right _ _
        | exact hs
        | exact hd
        | exact add_nonneg hs hhead
        | norm_num
  · simp [getInternalPressureForCheck]
  · intro h1 h2 h3
    simp [getInternalPressureForCheck, h1, h2, h3]

/-- C10 witness: the amended theorem instantiated on the Team 8 inputs. -/
theorem c10_witness :
    (0 ≤ team8Load.design_pressure_psi ∧ 0 ≤ team8Load.shut_in_pressure_psi ∧
     0 ≤ team8Pipe.fluid_sg ∧ 0 ≤ team8Load.riser_length_m) ∧
    0 ≤ getInternalPressureForCheck team8Pipe team8Load "Operation" "collapse" "Top" :=
  ⟨by norm_num [team8Pipe, team8Load],
   (c10_internal_pressure_nonneg team8Pipe team8Load "Operation" "collapse" "Top"
     (by norm_num [team8Load]) (by norm_num [team8Load])
     (by norm_num [team8Pipe]) (by norm_num [team8Load])).1⟩

/-- C4: for each of the six checks, a demand value ≤ 0 yields the
infinite/favorable safety factor and a passing check.  Demands: burst
uses Pi − Po; collapse and propagation use Po − Pi; hoop uses the
computed hoop stress (its infinite-geometry value is excluded by the
finite hypothesis); longitudinal uses the effective tension; combined
uses the combined ratio sqrt(ratio_sq), which is ≤ 0 iff ratio_sq ≤ 0. -/
theorem c4_favorable_demand (pipe : PipeProperties) (load : LoadingCondition)
    (p_internal p_external wt_eff : ℚ) (condition_name position : String) :
    ((computeBurst pipe p_internal p_external wt_eff).delta_p ≤ 0 →
      (computeBurst pipe p_internal p_external wt_eff).safety_factor = Fv.inf ∧
      (computeBurst pipe p_internal p_external wt_eff).pass_fail = true) ∧
    ((computeCollapse pipe p_internal p_external wt_eff).delta_p ≤ 0 →
      (computeCollapse pipe p_internal p_external wt_eff).sf_is_infinite = true ∧
      (computeCollapse pipe p_internal p_external wt_eff).pass_fail = true) ∧
    ((computePropagation pipe p_internal p_external wt_eff).delta_p ≤ 0 →
      (computePropagation pipe p_internal p_external wt_eff).sf_is_infinite = true ∧
      (computePropagation pipe p_internal p_external wt_eff).pass_fail = true) ∧
    (∀ s : ℚ, (computeHoop pipe p_internal p_external wt_eff).hoop_stress = Fv.fin s →
      s ≤ 0 →
      (computeHoop pipe p_internal p_external wt_eff).safety_factor = Fv.inf ∧
      (computeHoop pipe p_internal p_external wt_eff).pass_fail = true) ∧
    ((calculateLongitudinalLoad pipe load wt_eff p_internal p_external
        condition_name position).t_eff_lb ≤ 0 →
      (calculateLongitudinalLoad pipe load wt_eff p_internal p_external
        condition_name position).safety_factor = Fv.inf ∧
      (calculateLongitudinalLoad pipe load wt_eff p_internal p_external
        condition_name position).passes = true) ∧
    ((calculateCombinedLoad pipe load wt_eff p_internal p_external
        condition_name position).ratio_sq ≤ 0 →
      (calculateCombinedLoad pipe load wt_eff p_internal p_external
        condition_name position).sf_is_infinite = true ∧
      (calculateCombinedLoad pipe load wt_eff p_internal p_external
        condition_name position).passes = true) := by
  refine ⟨?_, ?_, ?_, ?_, ?_, ?_⟩
  · intro h
    rw [computeBurst_delta_p] at h
    constructor
    · rw [computeBurst_sf, if_pos h]
    · rw [computeBurst_pass, computeBurst_sf, if_pos h]
      rfl
  · intro h
    rw [computeCollapse_delta_p] at h
    exact ⟨by rw [computeCollapse_sf_is_infinite]; exact decide_eq_true h,
      by rw [computeCollapse_pass, if_pos h]⟩
  · intro h
    rw [computePropagation_delta_p] at h
    exact ⟨by rw [computePropagation_sf_is_infinite]; exact decide_eq_true h,
      by rw [computePropagation_pass, if_pos h]⟩
  · intro s hs hle
    have h0 : ¬ (0 < s) := not_lt.mpr hle
    constructor
    · rw [computeHoop_sf, hs]
      simp [h0]
    · rw [computeHoop_pass, computeHoop_sf, hs]
      simp [h0, Fv.geOne]
  · intro h
    constructor
    · rw [longitudinal_sf, if_pos h]
    · rw [longitudinal_passes, longitudinal_sf, if_pos h]
      rfl
  · intro h
    constructor
    · rw [combined_sf_is_infinite]
      exact decide_eq_true h
    · rw [combined_passes]
      apply decide_eq_true
      have hf := combined_design_factor_pos pipe load p_internal p_external wt_eff
        condition_name position
      nlinarith [hf]

/-- C4 witness: at Pi = Po = 0, Bottom position, all six demands are ≤ 0
and all six checks are favorable and passing. -/
theorem c4_witness :
    ((computeBurst team8Pipe 0 0 (3/4)).delta_p ≤ 0 ∧
     (computeBurst team8Pipe 0 0 (3/4)).safety_factor = Fv.inf ∧
     (computeBurst team8Pipe 0 0 (3/4)).pass_fail = true) ∧
    ((computeCollapse team8Pipe 0 0 (3/4)).delta_p ≤ 0 ∧
     (computeCollapse team8Pipe 0 0 (3/4)).sf_is_infinite = true ∧
     (computeCollapse team8Pipe 0 0 (3/4)).pass_fail = true) ∧
    ((computePropagation team8Pipe 0 0 (3/4)).delta_p ≤ 0 ∧
     (computePropagation team8Pipe 0 0 (3/4)).sf_is_infinite = true ∧
     (computePropagation team8Pipe 0 0 (3/4)).pass_fail = true) ∧
    ((computeHoop team8Pipe 0 0 (3/4)).hoop_stress = Fv.fin 0 ∧
     (computeHoop team8Pipe 0 0 (3/4)).safety_factor = Fv.inf ∧
     (computeHoop team8Pipe 0 0 (3/4)).pass_fail = true) ∧
    ((calculateLongitudinalLoad team8Pipe team8Load (3/4) 0 0 "Operation" "Bottom").t_eff_lb ≤ 0 ∧
     (calculateLongitudinalLoad team8Pipe team8Load (3/4) 0 0 "Operation" "Bottom").safety_factor = Fv.inf ∧
     (calculateLongitudinalLoad team8Pipe team8Load (3/4) 0 0 "Operation" "Bottom").passes = true) ∧
    ((calculateCombinedLoad team8Pipe team8Load (3/4) 0 0 "Operation" "Bottom").ratio_sq ≤ 0 ∧
     (calculateCombinedLoad team8Pipe team8Load (3/4) 0 0 "Operation" "Bottom").sf_is_infinite = true ∧
     (calculateCombinedLoad team8Pipe team8Load (3/4) 0 0 "Operation" "Bottom").passes = true) := by
  have hball := c4_favorable_demand team8Pipe team8Load 0 0 (3/4) "Operation" "Bottom"
  have hb : (computeBurst team8Pipe 0 0 (3/4)).delta_p ≤ 0 := by
    rw [computeBurst_delta_p]
    norm_num
  have hc : (computeCollapse team8Pipe 0 0 (3/4)).delta_p ≤ 0 := by
    rw [computeCollapse_delta_p]
    norm_num
  have hp : (computePropagation team8Pipe 0 0 (3/4)).delta_p ≤ 0 := by
    rw [computePropagation_delta_p]
    norm_num
  have hh : (computeHoop team8Pipe 0 0 (3/4)).hoop_stress = Fv.fin 0 := by
    rw [computeHoop_stress]
    norm_num [team8Pipe]
  have hbotfact : (strLower "Bottom" = "top") = False := by decide
  have hl : (calculateLongitudinalLoad team8Pipe team8Load (3/4) 0 0
      "Operation" "Bottom").t_eff_lb ≤ 0 := by
    rw [longitudinal_t_eff]
    norm_num [hbotfact]
  have hcmb : (calculateCombinedLoad team8Pipe team8Load (3/4) 0 0
      "Operation" "Bottom").ratio_sq ≤ 0 := by
    rw [combined_ratio_sq, longitudinal_t_eff]
    norm_num [hbotfact]
  exact ⟨⟨hb, hball.1 hb⟩, ⟨hc, hball.2.1 hc⟩, ⟨hp, hball.2.2.1 hp⟩,
    ⟨hh, hball.2.2.2.1 0 hh le_rfl⟩, ⟨hl, hball.2.2.2.2.1 hl⟩,
    ⟨hcmb, hball.2.2.2.2.2 hcmb⟩⟩

/-- C5 counterexample: at wt_eff = 16 in on the 16-in Team 8 pipe (an
effective thickness ≥ half the outer diameter), the hoop and burst checks
do not produce an invalid-geometry detail (no such field exists in the
source records); instead the utilization computation 1/sf divides by a
zero safety factor, raising ZeroDivisionError (modelled as none), so an
exception does escape the engine. -/
theorem c5_counterexample :
    team8Pipe.od_in / 2 ≤ 16 ∧
    (computeHoop team8Pipe 1 0 16).utilization = none ∧
    (computeBurst team8Pipe 1 0 16).utilization = none := by
  refine ⟨by norm_num [team8Pipe], ?_, ?_⟩
  · rw [computeHoop_utilization, computeHoop_sf, computeHoop_stress]
    norm_num [team8Pipe]
  · rw [computeBurst_utilization, computeBurst_sf, computeBurst_allowable,
      computeBurst_pb]
    norm_num [team8Pipe]

/-- C5 amended: when the effective thickness reaches the outer diameter
(or is non-positive) the hoop check reports an infinite hoop stress, a
zero safety factor and a failing result, and its utilization computation
raises ZeroDivisionError (none); likewise the burst check with a positive
demand reports zero capacity, a zero safety factor, a failing result, and
its utilization raises.  No invalid-geometry detail is produced anywhere,
and for D/2 ≤ t < D the checks compute normally. -/
theorem c5_amended_degenerate_geometry (pipe : PipeProperties)
    (p_internal p_external wt_eff : ℚ)
    (hg : wt_eff ≤ 0 ∨ pipe.od_in ≤ wt_eff) :
    (computeHoop pipe p_internal p_external wt_eff).hoop_stress = Fv.inf ∧
    (computeHoop pipe p_internal p_external wt_eff).safety_factor = Fv.fin 0 ∧
    (computeHoop pipe p_internal p_external wt_eff).pass_fail = false ∧
    (computeHoop pipe p_internal p_external wt_eff).utilization = none ∧
    (pipe.od_in ≤ wt_eff → 0 < p_internal - p_external →
      (computeBurst pipe p_internal p_external wt_eff).pb = 0 ∧
      (computeBurst pipe p_internal p_external wt_eff).safety_factor = Fv.fin 0 ∧
      (computeBurst pipe p_internal p_external wt_eff).pass_fail = false ∧
      (computeBurst pipe p_internal p_external wt_eff).utilization = none) := by
  have hstress : (computeHoop pipe p_internal p_external wt_eff).hoop_stress = Fv.inf := by
    rw [computeHoop_stress, if_pos hg]
  have hsf : (computeHoop pipe p_internal p_external wt_eff).safety_factor = Fv.fin 0 := by
    rw [computeHoop_sf, hstress]
  refine ⟨hstress, hsf, ?_, ?_, ?_⟩
  · rw [computeHoop_pass, hsf]
    norm_num [Fv.geOne]
  · rw [computeHoop_utilization, hsf]
    simp
  · intro hge hdp
    have hnotlt : ¬ wt_eff < pipe.od_in := not_lt.mpr hge
    have hpb : (computeBurst pipe p_internal p_external wt_eff).pb = 0 := by
      rw [computeBurst_pb, if_neg hnotlt]
    have hbsf : (computeBurst pipe p_internal p_external wt_eff).safety_factor = Fv.fin 0 := by
      rw [computeBurst_sf, if_neg (not_le.mpr hdp), computeBurst_allowable, hpb]
      norm_num
    refine ⟨hpb, hbsf, ?_, ?_⟩
    · rw [computeBurst_pass, hbsf]
      norm_num [Fv.geOne]
    · rw [computeBurst_utilization, hbsf]
      simp

/-- C5 witness: the amended theorem instantiated at wt_eff = 16 on the
16-in pipe with Pi = 1, Po = 0. -/
theorem c5_witness :
    (team8Pipe.od_in ≤ 16 ∧ 0 < (1:ℚ) - 0) ∧
    ((computeHoop team8Pipe 1 0 16).utilization = none ∧
     (computeBurst team8Pipe 1 0 16).utilization = none) := by
  have hge : team8Pipe.od_in ≤ (16:ℚ) := by norm_num [team8Pipe]
  have hmain := c5_amended_degenerate_geometry team8Pipe 1 0 16 (Or.inr hge)
  exact ⟨⟨hge, by norm_num⟩, hmain.2.2.2.1, (hmain.2.2.2.2 hge (by norm_num)).2.2.2⟩

/-- Left fold of Boolean conjunction over cells equals the accumulator
conjoined with List.all. -/
lemma foldl_and_eq_all (l : List ConditionCell) (b : Bool) :
    l.foldl (fun acc c => acc && c.all_pass) b = (b && l.all fun c => c.all_pass) := by
  induction l generalizing b with
  | nil => simp
  | cons x xs ih => simp [List.foldl_cons, ih, Bool.and_assoc]

/-- C7: every run evaluates exactly 16 cells (2 variants × 2 positions
for Installation and for Hydrotest, 4 variants × 2 positions for
Operation), every cell is labelled with its stage, and the overall
all_conditions_pass flag is the conjunction of the 16 per-cell all_pass
flags. -/
theorem c7_run_all_conditions_structure (pipe : PipeProperties) (load : LoadingCondition) :
    (runAllConditions pipe load).installation_cells.length = 4 ∧
    (runAllConditions pipe load).hydrotest_cells.length = 4 ∧
    (runAllConditions pipe load).operation_cells.length = 8 ∧
    (runAllConditions pipe load).cells.length = 16 ∧
    ((runAllConditions pipe load).installation_cells.all fun c =>
      c.condition_name == "Installation") = true ∧
    ((runAllConditions pipe load).hydrotest_cells.all fun c =>
      c.condition_name == "Hydrotest") = true ∧
    ((runAllConditions pipe load).operation_cells.all fun c =>
      c.condition_name == "Operation") = true ∧
    (runAllConditions pipe load).all_conditions_pass =
      ((runAllConditions pipe load).cells.all fun c => c.all_pass) := by
  refine ⟨rfl, rfl, rfl, rfl, rfl, rfl, rfl, ?_⟩
  have hdef : (runAllConditions pipe load).all_conditions_pass =
      (runAllConditions pipe load).cells.foldl (fun acc c => acc && c.all_pass) true := rfl
  rw [hdef, foldl_and_eq_all, Bool.true_and]

/-- C8: the limiting-check selection picks the entry with the minimum
safety factor over burst, collapse, propagation, hoop; ties go to the
earliest entry in that order, and when all four safety factors are the
infinite sentinel the burst entry (the first) is selected. -/
theorem c8_limiting_selection (b c p h : LimitEntry) :
    ((limitingCheck b c p h).sf ≤ b.sf ∧ (limitingCheck b c p h).sf ≤ c.sf ∧
     (limitingCheck b c p h).sf ≤ p.sf ∧ (limitingCheck b c p h).sf ≤ h.sf) ∧
    (limitingCheck b c p h = b ∨
     (limitingCheck b c p h = c ∧ c.sf < b.sf) ∨
     (limitingCheck b c p h = p ∧ p.sf < b.sf ∧ p.sf < c.sf) ∨
     (limitingCheck b c p h = h ∧ h.sf < b.sf ∧ h.sf < c.sf ∧ h.sf < p.sf)) ∧
    (b.sf = ⊤ ∧ c.sf = ⊤ ∧ p.sf = ⊤ ∧ h.sf = ⊤ → limitingCheck b c p h = b) := by
  unfold limitingCheck pyMinBySf
  simp only [List.foldl_cons, List.foldl_nil]
  split_ifs with h1 h2 h3 h4 h5 h6 h7
  all_goals refine ⟨⟨?_, ?_, ?_, ?_⟩, ?_, ?_⟩
  -- case h1 : c < b, h2 : p < c, h3 : h < p  (selected: h)
  · exact (h3.trans (h2.trans h1)).le
  · exact (h3.trans h2).le
  · exact h3.le
  · exact le_rfl
  · exact Or.inr (Or.inr (Or.inr ⟨rfl, h3.trans (h2.trans h1), h3.trans h2, h3⟩))
  · rintro ⟨hb, hc, -, -⟩
    rw [hb, hc] at h1
    exact absurd h1 (lt_irrefl _)
  -- case h1, h2, ¬h3  (selected: p)
  · exact (h2.trans h1).le
  · exact h2.le
  · exact le_rfl
  · exact not_lt.mp h3
  · exact Or.inr (Or.inr (Or.inl ⟨rfl, h2.trans h1, h2⟩))
  · rintro ⟨hb, hc, -, -⟩
    rw [hb, hc] at h1
    exact absurd h1 (lt_irrefl _)
  -- case h1, ¬h2, h4 : h < c  (selected: h)
  · exact (h4.trans h1).le
  · exact h4.le
  · exact (h4.trans_le (not_lt.mp h2)).le
  · exact le_rfl
  · exact Or.inr (Or.inr (Or.inr ⟨rfl, h4.trans h1, h4, h4.trans_le (not_lt.mp h2)⟩))
  · rintro ⟨hb, hc, -, -⟩
    rw [hb, hc] at h1
    exact absurd h1 (lt_irrefl _)
  -- case h1, ¬h2, ¬h4  (selected: c)
  · exact h1.le
  · exact le_rfl
  · exact not_lt.mp h2
  · exact not_lt.mp h4
  · exact Or.inr (Or.inl ⟨rfl, h1⟩)
  · rintro ⟨hb, hc, -, -⟩
    rw [hb, hc] at h1
    exact absurd h1 (lt_irrefl _)
  -- case ¬h1, h5 : p < b, h6 : h < p  (selected: h)
  · exact (h6.trans h5).le
  · exact ((h6.trans h5).trans_le (not_lt.mp h1)).le
  · exact h6.le
  · exact le_rfl
  · exact Or.inr (Or.inr (Or.inr
      ⟨rfl, h6.trans h5, (h6.trans h5).trans_le (not_lt.mp h1), h6⟩))
  · rintro ⟨hb, -, hp, -⟩
    rw [hb, hp] at h5
    exact absurd h5 (lt_irrefl _)
  -- case ¬h1, h5, ¬h6  (selected: p)
  · exact h5.le
  · exact (h5.trans_le (not_lt.mp h1)).le
  · exact le_rfl
  · exact not_lt.mp h6
  · exact Or.inr (Or.inr (Or.inl ⟨rfl, h5, h5.trans_le (not_lt.mp h1)⟩))
  · rintro ⟨hb, -, hp, -⟩
    rw [hb, hp] at h5
    exact absurd h5 (lt_irrefl _)
  -- case ¬h1, ¬h5, h7 : h < b  (selected: h)
  · exact h7.le
  · exact (h7.trans_le (not_lt.mp h1)).le
  · exact (h7.trans_le (not_lt.mp h5)).le
  · exact le_rfl
  · exact Or.inr (Or.inr (Or.inr
      ⟨rfl, h7, h7.trans_le (not_lt.mp h1), h7.trans_le (not_lt.mp h5)⟩))
  · rintro ⟨hb, -, -, hh⟩
    rw [hb, hh] at h7
    exact absurd h7 (lt_irrefl _)
  -- case ¬h1, ¬h5, ¬h7  (selected: b)
  · exact le_rfl
  · exact not_lt.mp h1
  · exact not_lt.mp h5
  · exact not_lt.mp h7
  · exact Or.inl rfl
  · intro
    rfl

/-- C8 witness: with all four safety factors infinite, the burst entry is
selected. -/
theorem c8_witness :
    ((⟨"Burst", ⊤⟩ : LimitEntry).sf = ⊤ ∧ (⟨"Collapse", ⊤⟩ : LimitEntry).sf = ⊤ ∧
     (⟨"Propagation", ⊤⟩ : LimitEntry).sf = ⊤ ∧ (⟨"Hoop", ⊤⟩ : LimitEntry).sf = ⊤) ∧
    limitingCheck ⟨"Burst", ⊤⟩ ⟨"Collapse", ⊤⟩ ⟨"Propagation", ⊤⟩ ⟨"Hoop", ⊤⟩ =
      ⟨"Burst", ⊤⟩ :=
  ⟨⟨rfl, rfl, rfl, rfl⟩,
   (c8_limiting_selection ⟨"Burst", ⊤⟩ ⟨"Collapse", ⊤⟩ ⟨"Propagation", ⊤⟩
     ⟨"Hoop", ⊤⟩).2.2 ⟨rfl, rfl, rfl, rfl⟩⟩

/-- Once the least-thickness slot is filled, the analyze_scenario fold
never changes its state. -/
lemma scenarioFold_some (l : List ThicknessCandidate) (x : ℚ) (y : Option ℚ) :
    l.foldl scenarioStep (some x, y) = (some x, y) := by
  induction l with
  | nil => rfl
  | cons a l ih => simp [List.foldl_cons, scenarioStep, ih]

/-- From an empty state, the analyze_scenario fold returns the first
all-passing candidate (in both components). -/
lemma scenarioFold_none (l : List ThicknessCandidate) :
    l.foldl scenarioStep (none, none) =
      (match l.find? (fun c => c.all_pass) with
       | some c => (some c.wt, some c.wt)
       | none => (none, none)) := by
  induction l with
  | nil => rfl
  | cons a l ih =>
    by_cases ha : a.all_pass
    · simp [List.foldl_cons, scenarioStep, ha, scenarioFold_some, List.find?_cons_of_pos]
    · have ha2 : a.all_pass = false := by
        simpa using ha
      simp [List.foldl_cons, scenarioStep, ha2, ih, List.find?_cons_of_neg]

/-- C3 counterexample: two ascending all-passing candidates, the first
with utilization 0.95 > 0.85 and the second with 0.5 ≤ 0.85.  The claim's
selection rule picks the second; the code reports the first (the least
passing), so the claimed rule does not describe the code. -/
theorem c3_counterexample :
    codeRecommendedThickness
      [⟨0.5, true, 0.95⟩, ⟨0.625, true, 0.5⟩] = some 0.5 ∧
    specRecommendedThickness
      [⟨0.5, true, 0.95⟩, ⟨0.625, true, 0.5⟩] = some 0.625 ∧
    codeRecommendedThickness [⟨0.5, true, 0.95⟩, ⟨0.625, true, 0.5⟩] ≠
      specRecommendedThickness [⟨0.5, true, 0.95⟩, ⟨0.625, true, 0.5⟩] := by
  refine ⟨?_, ?_, ?_⟩ <;>
    norm_num [codeRecommendedThickness, specRecommendedThickness, scenarioSelection,
      scenarioStep, List.foldl_cons, List.foldl_nil, List.find?]

/-- C3 amended: the code's recommended thickness always equals the
least-passing thickness — the first candidate with all_pass = true — and
no utilization bound is applied (there is no separate fallback rule
because recommended and least-passing are assigned together). -/
theorem c3_recommended_is_least_passing (cands : List ThicknessCandidate) :
    codeRecommendedThickness cands =
      ((cands.find? fun c => c.all_pass).map fun c => c.wt) ∧
    (scenarioSelection cands).1 = (scenarioSelection cands).2 := by
  unfold codeRecommendedThickness scenarioSelection
  rw [scenarioFold_none]
  cases hfind : cands.find? (fun c => c.all_pass) <;> simp [hfind]

end RiserApp
